import Mathlib

/-!
Shallow embedding of the authentication and session-integrity subsystem of
the homehost repository: the auth service (`services/auth.js`: password
strength policy, JWT issue/verify, token denylist), the user service
(`services/user.js`) and the auth controller (`controller/authController.js`:
authenticate middleware, register, login, logout, getProfile).

JavaScript values that flow through the code are modelled explicitly:
`JsVal` for payload/object values (string, number, null, undefined),
`TokenStr` for JavaScript strings in token position (a string either parses
as a JWT signed with some secret, or it is an arbitrary non-JWT string),
`TokVal` for arbitrary values reaching the token APIs.  Errors thrown by the
JavaScript code are `Except` errors carrying the thrown message, since the
source discriminates caught errors by their `message` string (and, in the
authenticate middleware, by `name` / the `isTokenError` flag, modelled by
`JsError`).
-/

/-- A JavaScript value appearing in JWT payloads and user objects. -/
inductive JsVal where
  | str (s : String)
  | num (n : Int)
  | null
  | undefined
deriving DecidableEq, Repr

/-- The payload encoded in a signed JWT by `jwt.sign({ userId }, secret,
{ expiresIn })`: the subject value passed through as-is, and the absolute
expiry time in seconds. -/
structure JwtPayload where
  userId : JsVal
  exp : Int
deriving DecidableEq, Repr

/-- A JavaScript string in token position: either a well-formed JWT carrying
a payload and signed under a secret, or any other (non-JWT) string.  The
empty string is `raw ""`; a well-formed JWT string is never empty. -/
inductive TokenStr where
  | jwt (p : JwtPayload) (secret : String)
  | raw (s : String)
deriving DecidableEq, Repr

/-- JavaScript falsiness of a string: only the empty string is falsy. -/
def TokenStr.falsy : TokenStr → Bool
  | .raw "" => true
  | _ => false

/-- An arbitrary JavaScript value reaching the token APIs
(`invalidateToken` / `isTokenInvalid` take `token` of any type). -/
inductive TokVal where
  | str (t : TokenStr)
  | num (n : Int)
  | boolV (b : Bool)
  | null
  | undefined
deriving DecidableEq, Repr

/-- `typeof token === 'string' && token` (truthy): the guard both token APIs
use to accept an input. -/
def TokVal.isNonemptyString : TokVal → Bool
  | .str t => !t.falsy
  | _ => false

/-- Errors of the jsonwebtoken library `jwt.verify`: `TokenExpiredError`,
`JsonWebTokenError` (malformed token / bad signature), or any other error
with a message (the `other` case never arises from the modelled library but
mirrors the defensive branch in `verifyToken`). -/
inductive JwtLibErr where
  | tokenExpiredError
  | jsonWebTokenError
  | other (msg : String)
deriving DecidableEq, Repr

/-- Model of `jwt.verify(token, secret)` at current time `now` (seconds):
a non-JWT string is malformed (`JsonWebTokenError`); a JWT signed under a
different secret has a bad signature (`JsonWebTokenError`); the signature is
checked before expiry, and a validly signed token whose expiry has passed
(`now` at or past `exp`) raises `TokenExpiredError`; otherwise the payload
is returned. -/
def jwtVerify (t : TokenStr) (secret : String) (now : Int) : Except JwtLibErr JwtPayload :=
  match t with
  | .raw _ => .error .jsonWebTokenError
  | .jwt p s =>
    if s ≠ secret then .error .jsonWebTokenError
    else if p.exp ≤ now then .error .tokenExpiredError
    else .ok p

/-- Model of `jwt.sign({ userId }, secret, { expiresIn })` at current time
`now`: a JWT carrying the subject as-is and expiry `now + ttl` seconds. -/
def jwtSign (userId : JsVal) (secret : String) (now ttl : Int) : TokenStr :=
  .jwt ⟨userId, now + ttl⟩ secret

/-- `generateToken(userId, expiry)` from services/auth.js: throws when the
`JWT_SECRET` environment variable (modelled as `secret : Option String`) is
absent, otherwise signs a JWT for `userId` expiring `ttl` seconds from
`now` (the default expiry of one day is `ttl = 86400`). -/
def generateToken (secret : Option String) (now : Int) (userId : JsVal) (ttl : Int) :
    Except String TokenStr :=
  match secret with
  | none => .error "JWT_SECRET environment variable is not set"
  | some s => .ok (jwtSign userId s now ttl)

/-- `verifyToken(token)` from services/auth.js: throws when no secret is
configured; otherwise re-throws the jsonwebtoken errors with its own
messages, distinguishing expiry from structural invalidity. -/
def verifyToken (secret : Option String) (now : Int) (t : TokenStr) :
    Except String JwtPayload :=
  match secret with
  | none => .error "JWT_SECRET environment variable is not set"
  | some s =>
    match jwtVerify t s now with
    | .ok p => .ok p
    | .error .tokenExpiredError => .error "Token has expired"
    | .error .jsonWebTokenError => .error "Invalid token"
    | .error (.other m) => .error ("Token verification failed: " ++ m)

/-- The `TOKEN_DENYLIST` of services/auth.js, a process-wide `Set` of raw
token strings, modelled as a duplicate-free-by-insertion list. -/
abbrev Denylist := List TokenStr

/-- `invalidateToken(token)` from services/auth.js acting on a denylist
state: throws `Invalid token format` unless the input is a truthy string;
otherwise re-verifies the token and, on success, adds it to the denylist and
returns `true`; a verification failure is swallowed and reported as `false`
with the denylist unchanged. -/
def invalidateToken (secret : Option String) (now : Int) (st : Denylist) (v : TokVal) :
    Except String (Bool × Denylist) :=
  match v with
  | .str t =>
    if t.falsy then .error "Invalid token format"
    else
      match verifyToken secret now t with
      | .ok _ => .ok (true, st.insert t)
      | .error _ => .ok (false, st)
  | _ => .error "Invalid token format"

/-- `isTokenInvalid(token)` from services/auth.js: any non-string or falsy
input counts as invalid (fail-closed); a truthy string is invalid exactly
when it is in the denylist — a pure membership test, with no expiry or
signature check. -/
def isTokenInvalid (st : Denylist) (v : TokVal) : Bool :=
  match v with
  | .str t => if t.falsy then true else st.contains t
  | _ => true

/-- `clearTokenDenylist()` from services/auth.js. -/
def clearTokenDenylist (_st : Denylist) : Denylist := []

/-- A `{valid, message}` result of the password strength policy. -/
structure ValidationResult where
  valid : Bool
  message : String
deriving DecidableEq, Repr

/-- The punctuation and symbol characters of the strength regex character
class (the opening and closing brace and the single quote are built by
code point to keep them out of the literal). -/
def specialChars : List Char :=
  ['!', '@', '#', '$', '%', '^', '&', '*', '(', ')', '_', '+', '-', '=',
   '[', ']', Char.ofNat 123, Char.ofNat 125, ';', Char.ofNat 39, ':', '"',
   '\\', '|', ',', '.', '<', '>', '/', '?']

/-- `validatePasswordStrength(password)` from services/auth.js: empty
passwords, passwords shorter than 8 characters, and passwords with no digit
and no special character are invalid, in that order of checks. -/
def validatePasswordStrength (password : String) : ValidationResult :=
  if password = "" then ⟨false, "Password cannot be empty"⟩
  else if password.length < 8 then
    ⟨false, "Password must be at least 8 characters long"⟩
  else if !(password.data.any (fun c => c.isDigit || specialChars.contains c)) then
    ⟨false, "Password must contain at least one number or special character"⟩
  else ⟨true, "Password meets strength requirements"⟩

/-- `verifyPassword(plainText, hash)` from services/auth.js, with the bcrypt
comparison abstracted as `check`: empty inputs short-circuit to `false`
without invoking the comparator. -/
def verifyPassword (check : String → String → Bool) (plainText hash : String) : Bool :=
  if plainText = "" ∨ hash = "" then false else check plainText hash

/-- A row of the `User` table (prisma/schema.prisma): the fields the auth
subsystem reads, with timestamps as integers and the optional profile
fields as `JsVal` (null when absent). -/
structure UserRec where
  id : Int
  email : String
  username : String
  password : String
  name : JsVal
  avatar : JsVal
  createdAt : Int
  updatedAt : Int
deriving DecidableEq, Repr

/-- A JavaScript object, as a key-value association list (first binding of
a key wins on lookup). -/
abbrev JsObj := List (String × JsVal)

/-- Property lookup `o[k]`, `undefined` when the key is absent. -/
def getField (o : JsObj) (k : String) : JsVal :=
  match o.find? (fun p => p.1 == k) with
  | some p => p.2
  | none => .undefined

/-- Whether the object has a binding for key `k`. -/
def hasKey (o : JsObj) (k : String) : Bool :=
  o.any (fun p => p.1 == k)

/-- Rest-destructuring `const { k, ...rest } = o`: the object without the
bindings of key `k`. -/
def omitKey (k : String) (o : JsObj) : JsObj :=
  o.filter (fun p => p.1 != k)

/-- The prisma row as a JavaScript object. -/
def UserRec.toObj (u : UserRec) : JsObj :=
  [("id", .num u.id), ("email", .str u.email), ("username", .str u.username),
   ("password", .str u.password), ("name", u.name), ("avatar", u.avatar),
   ("createdAt", .num u.createdAt), ("updatedAt", .num u.updatedAt)]

/-- The user database, a list of rows in insertion order (`findFirst` and
`findUnique` return the first match). -/
abbrev UserDb := List UserRec

/-- JavaScript `email.toLowerCase()`, modelled character by character (the
emails involved are ASCII). -/
def toLowerCase (s : String) : String :=
  ⟨s.data.map Char.toLower⟩

/-- JavaScript `Number(v)` coercion on the values the code passes as ids
(`none` models `NaN`). -/
def jsNumber : JsVal → Option Int
  | .num n => some n
  | .null => some 0
  | .undefined => none
  | .str s => if s = "" then some 0 else s.toInt?

/-- `getUserById(id)` from services/user.js: `Number(id)` lookup by primary
key, returning the row as an object with the `password` field removed, or
`null` (`none`) when no row matches. -/
def getUserById (db : UserDb) (id : JsVal) : Option JsObj :=
  match jsNumber id with
  | none => none
  | some n =>
    match db.find? (fun u => u.id == n) with
    | none => none
    | some u => some (omitKey "password" u.toObj)

/-- `getUserByEmail(email)` from services/user.js: the query email is
normalised to lowercase before an equality lookup; the `password` field is
removed from the result. -/
def getUserByEmail (db : UserDb) (email : String) : Option JsObj :=
  match db.find? (fun u => u.email == toLowerCase email) with
  | none => none
  | some u => some (omitKey "password" u.toObj)

/-- `createUser(email, username, password)` from services/user.js acting on
a database state, with the bcrypt hash abstracted as `hashFn` and the
autoincrement id and row timestamp supplied as `nextId` and `now`: validates
password strength (throwing its message), then rejects a duplicate of the
lowercased email, then persists the row with the normalised email and
hashed password, returning the created row without its `password` field. -/
def createUser (hashFn : String → String) (db : UserDb) (nextId : Int) (now : Int)
    (email username password : String) : Except String (JsObj × UserDb) :=
  let v := validatePasswordStrength password
  if !v.valid then .error v.message
  else
    let normalizedEmail := toLowerCase email
    match db.find? (fun u => u.email == normalizedEmail) with
    | some _ => .error "Email already in use"
    | none =>
      let newUser : UserRec :=
        ⟨nextId, normalizedEmail, username, hashFn password, .null, .null, now, now⟩
      .ok (omitKey "password" newUser.toObj, db ++ [newUser])

/-- `verifyCredentials(email, password)` from services/user.js: lookup by
lowercased email; a missing user and a failed password comparison both
throw the same `Invalid credentials` error; on success the row is returned
without its `password` field. -/
def verifyCredentials (check : String → String → Bool) (db : UserDb)
    (email password : String) : Except String JsObj :=
  match db.find? (fun u => u.email == toLowerCase email) with
  | none => .error "Invalid credentials"
  | some u =>
    if verifyPassword check password u.password then .ok (omitKey "password" u.toObj)
    else .error "Invalid credentials"

/-- A `{field, message}` item of an error response. -/
structure FieldError where
  field : String
  message : String
deriving DecidableEq, Repr

/-- `formatErrorResponse(status, message, errors)` from authController.js:
the `{status, message, errors}` envelope of every error response. -/
structure ErrorResponse where
  status : Nat
  message : String
  errors : List FieldError
deriving DecidableEq, Repr

def formatErrorResponse (status : Nat) (message : String) (errors : List FieldError) :
    ErrorResponse :=
  ⟨status, message, errors⟩

/-- A JavaScript error as the authenticate middleware inspects it: the
thrown message, the constructor `name`, and the `isTokenError` flag the
middleware stamps on verifier failures. -/
structure JsError where
  message : String
  name : String
  isTokenError : Bool
deriving DecidableEq, Repr

/-- The user-repository collaborator of the authenticate middleware
(`userService.getUserById`): resolves a subject to a user object, returns
`none` when no user exists, and may throw a `JsError`. -/
abbrev UserLookup := JsVal → Except JsError (Option JsObj)

/-- Terminal outcome of the authenticate middleware: reject with an error
response, or admit the request with the principal attached as `req.user`. -/
inductive AuthOutcome where
  | reject (r : ErrorResponse)
  | grant (principal : JsObj)
deriving DecidableEq, Repr

/-- The 401 body for a missing cookie token. -/
def authTokenMissingResponse : ErrorResponse :=
  formatErrorResponse 401 "Authentication failed"
    [⟨"auth", "Authentication token missing"⟩]

/-- The 401 body for an invalid token or an unknown subject. -/
def invalidAuthTokenResponse : ErrorResponse :=
  formatErrorResponse 401 "Authentication failed"
    [⟨"auth", "Invalid authentication token"⟩]

/-- The 500 body of the middleware catch-all. -/
def authServerErrorResponse : ErrorResponse :=
  formatErrorResponse 500 "Server error"
    [⟨"general", "Server error during authentication"⟩]

/-- The outer catch of the authenticate middleware: errors flagged
`isTokenError` or named like the jsonwebtoken errors yield the 401
invalid-token response; anything else yields the 500 server-error
response. -/
def authCatch (e : JsError) : AuthOutcome :=
  if e.isTokenError || e.name == "JsonWebTokenError" || e.name == "TokenExpiredError" then
    .reject invalidAuthTokenResponse
  else .reject authServerErrorResponse

/-- `authenticate(req, res, next)` from authController.js as composed with
the synchronous `verifyToken` of services/auth.js: reads the `auth_token`
cookie (a falsy value counts as missing) and then evaluates
`authService.verifyToken(token).catch(...)`.  Because `verifyToken` is
synchronous, a failing token throws its plain `Error` (name `Error`, no
`isTokenError` flag) before the `.catch` handler that would stamp
`isTokenError: true` can attach, and a successful verification returns a
plain payload object whose absent `.catch` property makes the call itself
throw a `TypeError` — so every request with a non-falsy token lands in the
outer catch with an error that is not recognizable as a token error, and
the `userService.getUserById` lookup line is dead code.  The collaborator
and denylist state are passed in to record that the middleware has access
to them; the composed source reaches neither. -/
def authenticate (secret : Option String) (now : Int) (_lookup : UserLookup)
    (_denylist : Denylist) (cookieToken : Option TokenStr) : AuthOutcome :=
  match cookieToken with
  | none => .reject authTokenMissingResponse
  | some t =>
    if t.falsy then .reject authTokenMissingResponse
    else
      match verifyToken secret now t with
      | .error m => authCatch ⟨m, "Error", false⟩
      | .ok _decoded =>
        authCatch
          ⟨"authService.verifyToken(...).catch is not a function", "TypeError", false⟩

/-- Result of the getProfile handler: the 200 body `{user: …}` or an error
response. -/
inductive ProfileResult where
  | ok (user : JsObj)
  | err (r : ErrorResponse)
deriving DecidableEq, Repr

/-- `getProfile(req, res)` from authController.js: with no `req.user` the
thrown error reaches the catch and a 500 is returned; otherwise the
response carries only the destructured id, username, email, createdAt and
updatedAt fields of the principal. -/
def getProfile (reqUser : Option JsObj) : ProfileResult :=
  match reqUser with
  | none =>
    .err (formatErrorResponse 500 "Server error"
      [⟨"general", "Server error while retrieving profile"⟩])
  | some u =>
    .ok [("id", getField u "id"), ("username", getField u "username"),
         ("email", getField u "email"), ("createdAt", getField u "createdAt"),
         ("updatedAt", getField u "updatedAt")]

/-- `isValidEmail(email)` helper: a character admissible on either side of
the `@` of `/^[^\s@]+@[^\s@]+\.[^\s@]+$/`. -/
def emailCharOk (c : Char) : Bool :=
  c != '@' && !c.isWhitespace

/-- Splits a character list at its first `@`, `none` when there is none. -/
def splitAtFirstAt : List Char → Option (List Char × List Char)
  | [] => none
  | '@' :: rest => some ([], rest)
  | c :: rest =>
    match splitAtFirstAt rest with
    | none => none
    | some (a, b) => some (c :: a, b)

/-- Whether the list has a dot that is not its last element. -/
def dotNotLast : List Char → Bool
  | [] => false
  | ['.'] => false
  | '.' :: _ :: _ => true
  | _ :: rest => dotNotLast rest

/-- `isValidEmail(email)` from authController.js, the anchored regex
`/^[^\s@]+@[^\s@]+\.[^\s@]+$/`: exactly one `@`, a non-empty local part, no
whitespace, and after the `@` a dot that is neither the first nor the last
character. -/
def isValidEmail (s : String) : Bool :=
  match splitAtFirstAt s.data with
  | none => false
  | some (lpart, rest) =>
    !lpart.isEmpty && lpart.all emailCharOk && rest.all emailCharOk &&
      (match rest with
       | [] => false
       | _ :: tl => dotNotLast tl)

/-- JavaScript falsiness of an optional string request-body field
(`undefined` is `none`; the empty string is also falsy). -/
def strFalsy : Option String → Bool
  | none => true
  | some s => s == ""

/-- The validation-error list the register handler accumulates, in push
order: email presence then format, username presence, password presence
then strength, and the strict-equality confirmation check
`password !== confirmPassword` on the raw body values. -/
def registerErrors (email username password confirmPassword : Option String) :
    List FieldError :=
  (match email with
   | none => [⟨"email", "Email is required"⟩]
   | some e =>
     if e == "" then [⟨"email", "Email is required"⟩]
     else if !isValidEmail e then [⟨"email", "Invalid email format"⟩]
     else [])
  ++ (if strFalsy username then [⟨"username", "Username is required"⟩] else [])
  ++ (match password with
   | none => [⟨"password", "Password is required"⟩]
   | some p =>
     if p == "" then [⟨"password", "Password is required"⟩]
     else
       let v := validatePasswordStrength p
       if !v.valid then [⟨"password", v.message⟩] else [])
  ++ (if password == confirmPassword then []
      else [⟨"confirmPassword", "Passwords do not match"⟩])

/-- Result of the register handler: 201 with the `{id, username, email}`
projection of the created user and the issued token (also set as the
`auth_token` cookie), or an error response. -/
inductive RegisterResult where
  | created (user : JsObj) (token : TokenStr)
  | err (r : ErrorResponse)
deriving DecidableEq, Repr

/-- The `{id, username, email}` projection both register and login put in
their success bodies. -/
def publicProjection (user : JsObj) : JsObj :=
  [("id", getField user "id"), ("username", getField user "username"),
   ("email", getField user "email")]

/-- `register(req, res)` from authController.js acting on a database state:
returns 400 with the accumulated validation errors when there are any;
otherwise creates the user, answering 400 `Email already in use` when
`createUser` throws that message and 500 on any other throw; then issues a
token for the created id (500 when that throws, with the row already
persisted) and answers 201. -/
def register (hashFn : String → String) (secret : Option String) (now : Int)
    (nextId : Int) (db : UserDb)
    (email username password confirmPassword : Option String) :
    RegisterResult × UserDb :=
  let errors := registerErrors email username password confirmPassword
  if !errors.isEmpty then
    (.err (formatErrorResponse 400 "Validation failed" errors), db)
  else
    match createUser hashFn db nextId now (email.getD "") (username.getD "")
      (password.getD "") with
    | .error m =>
      if m == "Email already in use" then
        (.err (formatErrorResponse 400 "Validation failed"
          [⟨"email", "Email already in use"⟩]), db)
      else
        (.err (formatErrorResponse 500 "Server error"
          [⟨"general", "Server error during registration"⟩]), db)
    | .ok (user, db2) =>
      match generateToken secret now (getField user "id") 86400 with
      | .error _ =>
        (.err (formatErrorResponse 500 "Server error"
          [⟨"general", "Server error during registration"⟩]), db2)
      | .ok token => (.created (publicProjection user) token, db2)

/-- The validation-error list the login handler accumulates: email presence
then format, and password presence. -/
def loginErrors (email password : Option String) : List FieldError :=
  (match email with
   | none => [⟨"email", "Email is required"⟩]
   | some e =>
     if e == "" then [⟨"email", "Email is required"⟩]
     else if !isValidEmail e then [⟨"email", "Invalid email format"⟩]
     else [])
  ++ (if strFalsy password then [⟨"password", "Password is required"⟩] else [])

/-- Result of the login handler: 200 with the `{id, username, email}`
projection and the issued token (also set as the `auth_token` cookie), or
an error response. -/
inductive LoginResult where
  | ok (user : JsObj) (token : TokenStr)
  | err (r : ErrorResponse)
deriving DecidableEq, Repr

/-- `login(req, res)` from authController.js: 400 with the accumulated
validation errors when there are any; otherwise verifies credentials,
mapping the `Invalid credentials` throw to the single generic 401 body and
any other throw to 500; then issues a token for the user id (500 when that
throws) and answers 200. -/
def login (check : String → String → Bool) (db : UserDb) (secret : Option String)
    (now : Int) (email password : Option String) : LoginResult :=
  let errors := loginErrors email password
  if !errors.isEmpty then
    .err (formatErrorResponse 400 "Validation failed" errors)
  else
    match verifyCredentials check db (email.getD "") (password.getD "") with
    | .error m =>
      if m == "Invalid credentials" then
        .err (formatErrorResponse 401 "Authentication failed"
          [⟨"general", "Invalid email or password"⟩])
      else
        .err (formatErrorResponse 500 "Server error"
          [⟨"general", "Server error during login"⟩])
    | .ok user =>
      match generateToken secret now (getField user "id") 86400 with
      | .error _ =>
        .err (formatErrorResponse 500 "Server error"
          [⟨"general", "Server error during login"⟩])
      | .ok token => .ok (publicProjection user) token

/-- Result of the logout handler: always the 200 success body; the denylist
state after the best-effort revocation is carried alongside. -/
structure LogoutResult where
  success : Bool
  message : String
  denylist : Denylist
deriving DecidableEq, Repr

/-- `logout(req, res)` from authController.js acting on the denylist state:
clears the cookie, then best-effort invalidates the token taken from the
Authorization header or the cookie (a falsy value means no token); a throw
from `invalidateToken` is swallowed.  The response is the success body in
every case. -/
def logout (secret : Option String) (now : Int) (st : Denylist)
    (headerToken cookieToken : Option TokenStr) : LogoutResult :=
  let tok :=
    match headerToken with
    | some h => if h.falsy then cookieToken else some h
    | none => cookieToken
  match tok with
  | none => ⟨true, "Successfully logged out", st⟩
  | some t =>
    if t.falsy then ⟨true, "Successfully logged out", st⟩
    else
      match invalidateToken secret now st (.str t) with
      | .ok (_, st2) => ⟨true, "Successfully logged out", st2⟩
      | .error _ => ⟨true, "Successfully logged out", st⟩

/-- A token that verifies successfully is a well-formed JWT, hence not the
empty string. -/
theorem verifyToken_ok_falsy_false (secret : Option String) (now : Int) (t : TokenStr)
    (p : JwtPayload) (h : verifyToken secret now t = .ok p) : t.falsy = false := by
  cases t with
  | jwt q s => rfl
  | raw s =>
    cases secret with
    | none => simp [verifyToken] at h
    | some s2 => simp [verifyToken, jwtVerify] at h

/-- Removing a key leaves an object with no binding for that key. -/
theorem hasKey_omitKey (k : String) (o : JsObj) : hasKey (omitKey k o) k = false := by
  simp only [hasKey, omitKey]
  rw [List.any_eq_false]
  intro p hp
  have h2 := (List.mem_filter.mp hp).2
  simp only [bne_iff_ne, ne_eq] at h2
  simp [h2]

/-- C4: a token validly signed under the configured secret whose encoded
expiry has passed fails verification with the TokenExpired error
(`Token has expired`), not the TokenInvalid error (`Invalid token`). -/
theorem verifyToken_expired_is_TokenExpired (p : JwtPayload) (s : String) (now : Int)
    (h : p.exp ≤ now) :
    verifyToken (some s) now (.jwt p s) = .error "Token has expired" ∧
    verifyToken (some s) now (.jwt p s) ≠ .error "Invalid token" := by
  have hv : verifyToken (some s) now (.jwt p s) = .error "Token has expired" := by
    simp [verifyToken, jwtVerify, h]
  exact ⟨hv, by simp [hv]⟩

/-- Witness for C4 at a concrete expired token. -/
theorem verifyToken_expired_is_TokenExpired_witness :
    verifyToken (some "secret") 100 (.jwt ⟨.num 7, 50⟩ "secret") = .error "Token has expired" ∧
    verifyToken (some "secret") 100 (.jwt ⟨.num 7, 50⟩ "secret") ≠ .error "Invalid token" :=
  verifyToken_expired_is_TokenExpired ⟨.num 7, 50⟩ "secret" 100 (by decide)

/-- C5: with a signing secret configured, issuing a token for any subject
(string, number, null or undefined) and verifying it before its expiry
yields a payload whose userId equals the original subject. -/
theorem generateToken_verifyToken_roundtrip (sub : JsVal) (s : String)
    (now ttl vnow : Int) (t : TokenStr)
    (hgen : generateToken (some s) now sub ttl = .ok t) (hfresh : vnow < now + ttl) :
    ∃ p, verifyToken (some s) vnow t = .ok p ∧ p.userId = sub := by
  have ht : t = .jwt ⟨sub, now + ttl⟩ s := by
    simpa [generateToken, jwtSign, eq_comm] using hgen
  subst ht
  refine ⟨⟨sub, now + ttl⟩, ?_, rfl⟩
  have hlt : ¬ (now + ttl ≤ vnow) := by omega
  simp [verifyToken, jwtVerify, hlt]

/-- Witness for C5 at a concrete subject and time. -/
theorem generateToken_verifyToken_roundtrip_witness :
    ∃ p, verifyToken (some "k") 100 (.jwt ⟨.str "alice", 86400⟩ "k") = .ok p ∧
      p.userId = .str "alice" :=
  generateToken_verifyToken_roundtrip (.str "alice") "k" 0 86400 100
    (.jwt ⟨.str "alice", 86400⟩ "k") rfl (by decide)

/-- C3: `invalidateToken` throws the InvalidFormat error on any input that
is not a non-empty string; on a string whose internal re-verification fails
it returns false with the denylist unchanged instead of propagating the
error; on a string that verifies it adds the token to the denylist and
returns true. -/
theorem invalidateToken_spec :
    (∀ (secret : Option String) (now : Int) (st : Denylist) (v : TokVal),
      v.isNonemptyString = false →
      invalidateToken secret now st v = .error "Invalid token format") ∧
    (∀ (secret : Option String) (now : Int) (st : Denylist) (t : TokenStr) (msg : String),
      t.falsy = false → verifyToken secret now t = .error msg →
      invalidateToken secret now st (.str t) = .ok (false, st)) ∧
    (∀ (secret : Option String) (now : Int) (st : Denylist) (t : TokenStr) (p : JwtPayload),
      verifyToken secret now t = .ok p →
      invalidateToken secret now st (.str t) = .ok (true, st.insert t) ∧
      (st.insert t).contains t = true) := by
  refine ⟨?_, ?_, ?_⟩
  · intro secret now st v hv
    cases v with
    | str t =>
      simp [TokVal.isNonemptyString] at hv
      simp [invalidateToken, hv]
    | num n => rfl
    | boolV b => rfl
    | null => rfl
    | undefined => rfl
  · intro secret now st t msg hfal hver
    simp [invalidateToken, hfal, hver]
  · intro secret now st t p hver
    have hfal := verifyToken_ok_falsy_false secret now t p hver
    exact ⟨by simp [invalidateToken, hfal, hver],
      List.elem_iff.mpr (List.mem_insert_self t st)⟩

/-- Witness for C3: a null input, an expired token, and a valid token at
concrete values. -/
theorem invalidateToken_spec_witness :
    invalidateToken (some "k") 0 [] .null = .error "Invalid token format" ∧
    invalidateToken (some "k") 200 [] (.str (.jwt ⟨.num 3, 100⟩ "k")) = .ok (false, []) ∧
    invalidateToken (some "k") 0 [] (.str (.jwt ⟨.num 3, 100⟩ "k")) =
      .ok (true, [.jwt ⟨.num 3, 100⟩ "k"]) :=
  ⟨invalidateToken_spec.1 (some "k") 0 [] .null rfl,
   invalidateToken_spec.2.1 (some "k") 200 [] (.jwt ⟨.num 3, 100⟩ "k") "Token has expired"
     rfl rfl,
   (invalidateToken_spec.2.2 (some "k") 0 [] (.jwt ⟨.num 3, 100⟩ "k") ⟨.num 3, 100⟩ rfl).1⟩

/-- C7: revoking a valid token makes `isTokenInvalid` answer true on it; a
non-empty string never added to the denylist tests false; any non-string or
empty input tests true (fail-closed), by the guard alone and with no expiry
or signature check. -/
theorem isTokenInvalid_spec :
    (∀ (secret : Option String) (now : Int) (st : Denylist) (t : TokenStr) (p : JwtPayload),
      verifyToken secret now t = .ok p →
      ∃ st2, invalidateToken secret now st (.str t) = .ok (true, st2) ∧
        isTokenInvalid st2 (.str t) = true) ∧
    (∀ (st : Denylist) (t : TokenStr), t.falsy = false → st.contains t = false →
      isTokenInvalid st (.str t) = false) ∧
    (∀ (st : Denylist) (v : TokVal), v.isNonemptyString = false →
      isTokenInvalid st v = true) := by
  refine ⟨?_, ?_, ?_⟩
  · intro secret now st t p hver
    have hfal := verifyToken_ok_falsy_false secret now t p hver
    refine ⟨st.insert t, by simp [invalidateToken, hfal, hver], ?_⟩
    have hmem : (st.insert t).contains t = true :=
      List.elem_iff.mpr (List.mem_insert_self t st)
    simp [isTokenInvalid, hfal, hmem]
  · intro st t hfal hcon
    simp [isTokenInvalid, hfal, hcon]
    intro hm
    rw [List.contains, List.elem_iff.mpr hm] at hcon
    cases hcon
  · intro st v hv
    cases v with
    | str t =>
      simp [TokVal.isNonemptyString] at hv
      simp [isTokenInvalid, hv]
    | num n => rfl
    | boolV b => rfl
    | null => rfl
    | undefined => rfl

/-- Witness for C7: a revoked token, a fresh random string, and a null
input at concrete values. -/
theorem isTokenInvalid_spec_witness :
    (∃ st2, invalidateToken (some "k") 0 [] (.str (.jwt ⟨.num 3, 100⟩ "k")) = .ok (true, st2) ∧
      isTokenInvalid st2 (.str (.jwt ⟨.num 3, 100⟩ "k")) = true) ∧
    isTokenInvalid [] (.str (.raw "never-issued")) = false ∧
    isTokenInvalid [] .null = true :=
  ⟨isTokenInvalid_spec.1 (some "k") 0 [] (.jwt ⟨.num 3, 100⟩ "k") ⟨.num 3, 100⟩ rfl,
   isTokenInvalid_spec.2.1 [] (.raw "never-issued") rfl rfl,
   isTokenInvalid_spec.2.2 [] .null rfl⟩

/-- C1: code-bug evidence — the claim says a cookie token that fails
verification makes the gate respond 401, never 500, but in the composed
source the synchronous `verifyToken` throw bypasses the promise `.catch`
that would flag it `isTokenError`, so the outer catch receives a plain
Error (name `Error`) it does not recognize as a token error and the gate
responds 500 AuthServerError for every verification failure. -/
theorem authenticate_verify_failure_500 (secret : Option String) (now : Int)
    (lookup : UserLookup) (d : Denylist) (t : TokenStr) (msg : String)
    (hfal : t.falsy = false) (hver : verifyToken secret now t = .error msg) :
    authenticate secret now lookup d (some t) = .reject authServerErrorResponse ∧
    authServerErrorResponse.status = 500 := by
  constructor
  · simp [authenticate, hfal, hver, authCatch]
  · rfl

/-- Witness for C1 at a concrete failing input: an expired-but-validly
signed cookie token is answered 500, not 401. -/
theorem authenticate_verify_failure_500_witness :
    authenticate (some "k") 200 (fun _ => .ok none) [] (some (.jwt ⟨.num 1, 100⟩ "k")) =
      .reject authServerErrorResponse ∧ authServerErrorResponse.status = 500 :=
  authenticate_verify_failure_500 (some "k") 200 (fun _ => .ok none) []
    (.jwt ⟨.num 1, 100⟩ "k") "Token has expired" rfl rfl

/-- C2: code-bug evidence — the claim says a validly signed, unexpired
token whose subject resolves to an existing user is admitted with the
principal attached (even when revoked, the gate never consulting the
denylist), but in the composed source the synchronous `verifyToken`
returns a plain payload object, the `.catch` property access on it throws
a TypeError, and the outer catch answers 500: the gate never admits any
token-bearing request.  The outcome is indeed independent of the denylist
state — that half of the claim holds — yet it is a 500 rejection, never a
grant. -/
theorem authenticate_valid_token_500 (secret : Option String) (now : Int)
    (lookup : UserLookup) (d : Denylist) (t : TokenStr) (p : JwtPayload) (u : JsObj)
    (hver : verifyToken secret now t = .ok p)
    (_hlook : lookup p.userId = .ok (some u)) (_hrevoked : t ∈ d) :
    authenticate secret now lookup d (some t) = .reject authServerErrorResponse ∧
    (∀ d2 : Denylist, authenticate secret now lookup d (some t) =
      authenticate secret now lookup d2 (some t)) ∧
    (∀ u2 : JsObj, authenticate secret now lookup d (some t) ≠ .grant u2) := by
  have hfal := verifyToken_ok_falsy_false secret now t p hver
  have h500 : authenticate secret now lookup d (some t) = .reject authServerErrorResponse := by
    simp [authenticate, hfal, hver, authCatch]
  exact ⟨h500, fun d2 => rfl, fun u2 => by simp [h500]⟩

/-- Witness for C2 at a concrete input: a valid revoked token whose
subject resolves to an existing user is answered 500, not admitted. -/
theorem authenticate_valid_token_500_witness :
    authenticate (some "k") 0 (fun _ => .ok (some [("id", .num 1)]))
      [.jwt ⟨.num 1, 100⟩ "k"] (some (.jwt ⟨.num 1, 100⟩ "k")) =
      .reject authServerErrorResponse ∧
    (∀ d2 : Denylist, authenticate (some "k") 0 (fun _ => .ok (some [("id", .num 1)]))
      [.jwt ⟨.num 1, 100⟩ "k"] (some (.jwt ⟨.num 1, 100⟩ "k")) =
      authenticate (some "k") 0 (fun _ => .ok (some [("id", .num 1)]))
        d2 (some (.jwt ⟨.num 1, 100⟩ "k"))) ∧
    (∀ u2 : JsObj, authenticate (some "k") 0 (fun _ => .ok (some [("id", .num 1)]))
      [.jwt ⟨.num 1, 100⟩ "k"] (some (.jwt ⟨.num 1, 100⟩ "k")) ≠ .grant u2) :=
  authenticate_valid_token_500 (some "k") 0 (fun _ => .ok (some [("id", .num 1)]))
    [.jwt ⟨.num 1, 100⟩ "k"] (.jwt ⟨.num 1, 100⟩ "k") ⟨.num 1, 100⟩ [("id", .num 1)]
    rfl rfl (List.mem_singleton.mpr rfl)

/-- A string the email regex accepts is non-empty. -/
theorem isValidEmail_ne_empty (e : String) (h : isValidEmail e = true) : e ≠ "" := by
  intro he
  rw [he] at h
  exact absurd h (by decide)

/-- A password the strength policy accepts is non-empty. -/
theorem validPassword_ne_empty (pw : String)
    (h : (validatePasswordStrength pw).valid = true) : pw ≠ "" := by
  intro he
  rw [he] at h
  exact absurd h (by decide)

/-- C6: for a well-formed email and non-empty password, a login whose email
matches no record and a login whose record exists but fails password
verification produce the identical 401 body
`{field: general, message: Invalid email or password}`. -/
theorem login_uniform_invalid_credentials (check : String → String → Bool) (db : UserDb)
    (secret : Option String) (now : Int) (e pw : String)
    (hemail : isValidEmail e = true) (hpw : pw ≠ "")
    (hfail : db.find? (fun u => u.email == toLowerCase e) = none ∨
      ∃ u, db.find? (fun u => u.email == toLowerCase e) = some u ∧
        verifyPassword check pw u.password = false) :
    login check db secret now (some e) (some pw) =
      .err (formatErrorResponse 401 "Authentication failed"
        [⟨"general", "Invalid email or password"⟩]) := by
  have hne : e ≠ "" := isValidEmail_ne_empty e hemail
  have herrs : loginErrors (some e) (some pw) = [] := by
    simp [loginErrors, strFalsy, hne, hpw, hemail]
  have hcred : verifyCredentials check db e pw = .error "Invalid credentials" := by
    rcases hfail with hnone | ⟨u, hu, hverpw⟩
    · simp [verifyCredentials, hnone]
    · simp [verifyCredentials, hu, hverpw]
  simp [login, herrs, hcred]

/-- Witness for C6: with the same request, a run on a database without the
user and a run where the stored hash does not match give the same 401
body. -/
theorem login_uniform_invalid_credentials_witness :
    login (fun _ _ => false) [] (some "k") 0 (some "a@b.co") (some "pw123") =
      .err (formatErrorResponse 401 "Authentication failed"
        [⟨"general", "Invalid email or password"⟩]) ∧
    login (fun _ _ => false) [⟨1, "a@b.co", "bob", "hash", .null, .null, 0, 0⟩]
      (some "k") 0 (some "a@b.co") (some "pw123") =
      .err (formatErrorResponse 401 "Authentication failed"
        [⟨"general", "Invalid email or password"⟩]) :=
  ⟨login_uniform_invalid_credentials (fun _ _ => false) [] (some "k") 0 "a@b.co" "pw123"
     (by decide) (by decide) (Or.inl rfl),
   login_uniform_invalid_credentials (fun _ _ => false)
     [⟨1, "a@b.co", "bob", "hash", .null, .null, 0, 0⟩] (some "k") 0 "a@b.co" "pw123"
     (by decide) (by decide)
     (Or.inr ⟨⟨1, "a@b.co", "bob", "hash", .null, .null, 0, 0⟩, rfl, rfl⟩)⟩

/-- C8: registering a second time with an email differing only in letter
case is rejected 400 `Email already in use`: the first registration stores
the lowercased email, and the duplicate check looks the lowercased email
up, so the second request hits the stored record. -/
theorem register_duplicate_email_case_insensitive
    (hashFn : String → String) (s : String) (secret2 : Option String)
    (now nextId now2 nextId2 : Int) (db : UserDb) (e1 e2 uname pw : String)
    (h1 : isValidEmail e1 = true) (h2 : isValidEmail e2 = true)
    (hsame : toLowerCase e2 = toLowerCase e1)
    (huser : uname ≠ "") (hpw : (validatePasswordStrength pw).valid = true)
    (hfresh : db.find? (fun u => u.email == toLowerCase e1) = none) :
    register hashFn (some s) now nextId db (some e1) (some uname) (some pw) (some pw) =
      (.created [("id", .num nextId), ("username", .str uname),
          ("email", .str (toLowerCase e1))]
        (.jwt ⟨.num nextId, now + 86400⟩ s),
       db ++ [⟨nextId, toLowerCase e1, uname, hashFn pw, .null, .null, now, now⟩]) ∧
    (register hashFn secret2 now2 nextId2
        (db ++ [⟨nextId, toLowerCase e1, uname, hashFn pw, .null, .null, now, now⟩])
        (some e2) (some uname) (some pw) (some pw)).1 =
      .err (formatErrorResponse 400 "Validation failed"
        [⟨"email", "Email already in use"⟩]) := by
  have hne1 : e1 ≠ "" := isValidEmail_ne_empty e1 h1
  have hne2 : e2 ≠ "" := isValidEmail_ne_empty e2 h2
  have hpwne : pw ≠ "" := validPassword_ne_empty pw hpw
  have herrs1 : registerErrors (some e1) (some uname) (some pw) (some pw) = [] := by
    simp [registerErrors, strFalsy, hne1, h1, huser, hpwne, hpw]
  have herrs2 : registerErrors (some e2) (some uname) (some pw) (some pw) = [] := by
    simp [registerErrors, strFalsy, hne2, h2, huser, hpwne, hpw]
  constructor
  · simp [register, herrs1, createUser, hpw, hfresh, UserRec.toObj, omitKey,
      publicProjection, getField, generateToken, jwtSign]
  · have hfind2 : (db ++
        [(⟨nextId, toLowerCase e1, uname, hashFn pw, .null, .null, now, now⟩ : UserRec)]).find?
          (fun u => u.email == toLowerCase e2) =
        some ⟨nextId, toLowerCase e1, uname, hashFn pw, .null, .null, now, now⟩ := by
      rw [hsame, List.find?_append, hfresh]
      simp [List.find?]
    simp [register, herrs2, createUser, hpw, hfind2]

/-- Witness for C8: `A@x.com` then `a@X.com` at concrete values. -/
theorem register_duplicate_email_case_insensitive_witness :
    register (fun _ => "h") (some "k") 0 1 [] (some "A@x.com") (some "bob")
        (some "password1") (some "password1") =
      (.created [("id", .num 1), ("username", .str "bob"), ("email", .str "a@x.com")]
        (.jwt ⟨.num 1, 86400⟩ "k"),
       [⟨1, "a@x.com", "bob", "h", .null, .null, 0, 0⟩]) ∧
    (register (fun _ => "h") (some "k") 5 2
        [⟨1, "a@x.com", "bob", "h", .null, .null, 0, 0⟩] (some "a@X.com") (some "bob")
        (some "password1") (some "password1")).1 =
      .err (formatErrorResponse 400 "Validation failed"
        [⟨"email", "Email already in use"⟩]) :=
  register_duplicate_email_case_insensitive (fun _ => "h") "k" (some "k") 0 1 5 2 []
    "A@x.com" "a@X.com" "bob" "password1" (by decide) (by decide) rfl (by decide)
    (by decide) rfl

/-- C10: when both password and confirmPassword are absent, register
answers 400 with a list containing the `Password is required` entry for the
password field and no confirmPassword entry, because the strict-equality
mismatch check compares the two raw values and undefined equals
undefined. -/
theorem register_absent_passwords (hashFn : String → String) (secret : Option String)
    (now nextId : Int) (db : UserDb) (email username : Option String) :
    ∃ errs, register hashFn secret now nextId db email username none none =
      (.err (formatErrorResponse 400 "Validation failed" errs), db) ∧
      ⟨"password", "Password is required"⟩ ∈ errs ∧
      ∀ fe ∈ errs, fe.field ≠ "confirmPassword" := by
  have hmem : (⟨"password", "Password is required"⟩ : FieldError) ∈
      registerErrors email username none none := by
    simp [registerErrors]
  have hne : registerErrors email username none none ≠ [] := List.ne_nil_of_mem hmem
  have hie : (registerErrors email username none none).isEmpty = false := by
    rcases h : registerErrors email username none none with _ | ⟨a, l⟩
    · exact absurd h hne
    · rfl
  refine ⟨registerErrors email username none none, ?_, hmem, ?_⟩
  · simp [register, hie]
  · intro fe hfe
    simp only [registerErrors, List.mem_append] at hfe
    rcases hfe with ((hA | hB) | hC) | hD
    · cases email with
      | none =>
        simp at hA
        simp [hA]
      | some e =>
        by_cases hc1 : (e == "") = true
        · simp [hc1] at hA
          simp [hA]
        · by_cases hc2 : isValidEmail e = true
          · simp [hc1, hc2] at hA
          · simp [hc1, hc2] at hA
            simp [hA]
    · by_cases hb1 : strFalsy username = true
      · simp [hb1] at hB
        simp [hB]
      · simp [hb1] at hB
    · simp at hC
      simp [hC]
    · simp at hD

/-- Witness for C10 at a concrete request body. -/
theorem register_absent_passwords_witness :
    ∃ errs, register (fun _ => "h") (some "k") 0 1 [] (some "a@b.co") (some "bob")
        none none =
      (.err (formatErrorResponse 400 "Validation failed" errs), []) ∧
      ⟨"password", "Password is required"⟩ ∈ errs ∧
      ∀ fe ∈ errs, fe.field ≠ "confirmPassword" :=
  register_absent_passwords (fun _ => "h") (some "k") 0 1 [] (some "a@b.co") (some "bob")

/-- C9: no auth operation that returns a user record ever includes the
stored password hash: the user-service results strip the `password` field,
and the register, login and profile response bodies are built from
projections that never include it. -/
theorem no_password_in_response_payloads :
    (∀ (db : UserDb) (id : JsVal) (o : JsObj), getUserById db id = some o →
      hasKey o "password" = false) ∧
    (∀ (db : UserDb) (e : String) (o : JsObj), getUserByEmail db e = some o →
      hasKey o "password" = false) ∧
    (∀ (hashFn : String → String) (db : UserDb) (nid now : Int) (e un pw : String)
      (o : JsObj) (db2 : UserDb), createUser hashFn db nid now e un pw = .ok (o, db2) →
      hasKey o "password" = false) ∧
    (∀ (check : String → String → Bool) (db : UserDb) (e pw : String) (o : JsObj),
      verifyCredentials check db e pw = .ok o → hasKey o "password" = false) ∧
    (∀ (hashFn : String → String) (secret : Option String) (now nid : Int) (db : UserDb)
      (e un pw cp : Option String) (o : JsObj) (tok : TokenStr) (db2 : UserDb),
      register hashFn secret now nid db e un pw cp = (.created o tok, db2) →
      hasKey o "password" = false) ∧
    (∀ (check : String → String → Bool) (db : UserDb) (secret : Option String) (now : Int)
      (e pw : Option String) (o : JsObj) (tok : TokenStr),
      login check db secret now e pw = .ok o tok → hasKey o "password" = false) ∧
    (∀ (u : JsObj) (o : JsObj), getProfile (some u) = .ok o →
      hasKey o "password" = false) := by
  refine ⟨?_, ?_, ?_, ?_, ?_, ?_, ?_⟩
  · intro db id o h
    simp only [getUserById] at h
    split at h
    · cases h
    · split at h
      · cases h
      · rw [Option.some_inj] at h
        rw [← h]
        exact hasKey_omitKey "password" _
  · intro db e o h
    simp only [getUserByEmail] at h
    split at h
    · cases h
    · rw [Option.some_inj] at h
      rw [← h]
      exact hasKey_omitKey "password" _
  · intro hashFn db nid now e un pw o db2 h
    simp only [createUser] at h
    split at h
    · cases h
    · split at h
      · cases h
      · simp only [Except.ok.injEq, Prod.mk.injEq] at h
        rw [← h.1]
        exact hasKey_omitKey "password" _
  · intro check db e pw o h
    simp only [verifyCredentials] at h
    split at h
    · cases h
    · split at h
      · simp only [Except.ok.injEq] at h
        rw [← h]
        exact hasKey_omitKey "password" _
      · cases h
  · intro hashFn secret now nid db e un pw cp o tok db2 h
    simp only [register] at h
    split at h
    · simp at h
    · split at h
      · split at h
        · simp at h
        · simp at h
      · split at h
        · simp at h
        · simp only [Prod.mk.injEq, RegisterResult.created.injEq] at h
          rw [← h.1.1]
          rfl
  · intro check db secret now e pw o tok h
    simp only [login] at h
    split at h
    · cases h
    · split at h
      · split at h
        · cases h
        · cases h
      · split at h
        · cases h
        · simp only [LoginResult.ok.injEq] at h
          rw [← h.1]
          rfl
  · intro u o h
    simp only [getProfile, ProfileResult.ok.injEq] at h
    rw [← h]
    rfl

/-- Witness for C9: each operation evaluated at a concrete input. -/
theorem no_password_in_response_payloads_witness :
    (getUserById [⟨1, "a@b.co", "bob", "h", .null, .null, 0, 0⟩] (.num 1) =
        some [("id", .num 1), ("email", .str "a@b.co"), ("username", .str "bob"),
          ("name", .null), ("avatar", .null), ("createdAt", .num 0), ("updatedAt", .num 0)] ∧
      hasKey [("id", JsVal.num 1), ("email", .str "a@b.co"), ("username", .str "bob"),
          ("name", .null), ("avatar", .null), ("createdAt", .num 0), ("updatedAt", .num 0)]
        "password" = false) ∧
    hasKey [("id", JsVal.num 1), ("email", .str "a@b.co"), ("username", .str "bob"),
        ("name", .null), ("avatar", .null), ("createdAt", .num 0), ("updatedAt", .num 0)]
      "password" = false :=
  ⟨⟨rfl, no_password_in_response_payloads.1 [⟨1, "a@b.co", "bob", "h", .null, .null, 0, 0⟩]
      (.num 1) _ rfl⟩,
   no_password_in_response_payloads.2.2.2.1 (fun _ _ => true)
     [⟨1, "a@b.co", "bob", "h", .null, .null, 0, 0⟩] "a@b.co" "h" _ rfl⟩
